import Mathlib

set_option autoImplicit false
set_option linter.unusedVariables false

/-!
Verification development for the task-manager-app OAuth flow
(`mcp_server/oauth_provider.py` and `mcp_server/auth0.py`).

Python dictionaries are modelled as association lists over `String` keys,
mutation as explicit state passing, `time.time()` as an integer `now`
parameter (second granularity, matching the `int(...)` truncations in the
source), and raised exceptions as `Except PyError`.  Library calls that the
source delegates to (PyJWT parsing, `RSAAlgorithm.from_jwk`, the JWKS HTTP
fetch, the upstream token POST, `urlencode`) are oracle parameters gathered
in environment records; `jwt.decode` itself is modelled concretely
(signature check via the oracle, then required claims, `exp`, `aud`, `iss`
validation, following PyJWT's documented order).
-/

namespace OAuthSpec

/-- Python `not s.strip()`: the string contains only whitespace (or is
empty).  Implemented over the character list so it evaluates by `rfl`. -/
def pyBlank (s : String) : Bool :=
  s.data.all (fun c => c.isWhitespace)

/-- Python `"?" in s` for a single character. -/
def pyContainsChar (s : String) (c : Char) : Bool :=
  s.data.contains c

/-- Helper for `pySplitSpace`: accumulate the current chunk (reversed). -/
def pySplitSpaceAux : List Char → List Char → List String
  | [], acc => [String.mk acc.reverse]
  | c :: rest, acc =>
      if c = ' ' then String.mk acc.reverse :: pySplitSpaceAux rest []
      else pySplitSpaceAux rest (c :: acc)

/-- Python `s.split(" ")`: split on every single space, keeping empty
chunks (`"a  b".split(" ") == ["a", "", "b"]`). -/
def pySplitSpace (s : String) : List String :=
  pySplitSpaceAux s.data []

/-- First-match lookup in an association list; models Python `dict.get`. -/
def alget {α : Type} : List (String × α) → String → Option α
  | [], _ => none
  | (k', v) :: rest, k => if k' = k then some v else alget rest k

/-- Key update; models Python `d[k] = v`. -/
def alput {α : Type} (m : List (String × α)) (k : String) (v : α) : List (String × α) :=
  (k, v) :: m.filter (fun p => p.1 ≠ k)

/-- Key removal; models Python `d.pop(k, None)` (ignoring the returned value). -/
def alpop {α : Type} (m : List (String × α)) (k : String) : List (String × α) :=
  m.filter (fun p => p.1 ≠ k)

/-- JSON values, as returned by `resp.json()` and carried in JWT claims. -/
inductive Json where
  | null
  | bool (b : Bool)
  | num (n : Int)
  | str (s : String)
  | arr (elems : List Json)
  | obj (fields : List (String × Json))
deriving Repr

/-- Python truthiness of a JSON value (`if self._jwks_cache ...`). -/
def Json.truthy : Json → Bool
  | Json.null => false
  | Json.bool b => b
  | Json.num n => n ≠ 0
  | Json.str s => s ≠ ""
  | Json.arr xs => ¬ xs.isEmpty
  | Json.obj fs => ¬ fs.isEmpty

/-- The header part of a JWT, as read by `jwt.get_unverified_header`. -/
structure JwtHeader where
  alg : Option String
  kid : Option String
deriving Repr, DecidableEq

/-- A structured JWT: header plus claims payload (signature is handled by
the abstract `sigOk` oracle below). -/
structure Jwt where
  header : JwtHeader
  payload : List (String × Json)
deriving Repr

/-- A public key produced by `RSAAlgorithm.from_jwk`; opaque key material. -/
structure Jwk where
  raw : Json
deriving Repr

/-- Python-level exceptions distinguished by the claims: `TokenError`
(carrying the OAuth error code and description), `httpx` status errors from
`raise_for_status`, PyJWT exceptions, and other library failures. -/
inductive PyError where
  | tokenError (errCode : String) (description : String)
  | httpStatusError (status : Nat)
  | jwtError (kind : String)
  | libError (msg : String)
deriving Repr, DecidableEq

/-- True iff a result is a raised `TokenError` with code `invalid_grant`. -/
def isInvalidGrant {α : Type} : Except PyError α → Bool
  | Except.error (PyError.tokenError e _) => e == "invalid_grant"
  | _ => false

/-- `mcp.server.auth.provider.AccessToken` (the fields this code uses). -/
structure AccessToken where
  token : String
  client_id : String
  scopes : List String
  expires_at : Option Int
  resource : Option String
deriving Repr, DecidableEq

/-- `mcp.server.auth.provider.RefreshToken`. -/
structure RefreshToken where
  token : String
  client_id : String
  scopes : List String
  expires_at : Option Int
deriving Repr, DecidableEq

/-- `mcp.server.auth.provider.AuthorizationCode`. -/
structure AuthorizationCode where
  code : String
  scopes : List String
  expires_at : Int
  client_id : String
  code_challenge : String
  redirect_uri : String
  redirect_uri_provided_explicitly : Bool
  resource : Option String
deriving Repr, DecidableEq

/-- `mcp.server.auth.provider.AuthorizationParams` (fields this code uses). -/
structure AuthorizationParams where
  state : Option String
  scopes : Option (List String)
  code_challenge : String
  redirect_uri : String
  redirect_uri_provided_explicitly : Bool
  resource : Option String
deriving Repr, DecidableEq

/-- `mcp.shared.auth.OAuthToken` as built by the token exchanges. -/
structure OAuthToken where
  access_token : String
  token_type : String
  expires_in : Int
  refresh_token : String
  scope : String
deriving Repr, DecidableEq

/-- Environment oracles for the JWT/JWKS library calls. -/
structure JwtEnv where
  parseJwt : String → Except PyError Jwt
  fetchJwks : Except PyError Json
  fromJwk : Json → Except PyError Jwk
  sigOk : Jwk → Jwt → Bool

/-- PyJWT audience validation: the `aud` claim must be the configured
audience (string) or contain it (array of strings). -/
def audOk (payload : List (String × Json)) (audience : String) : Bool :=
  match alget payload "aud" with
  | some (Json.str a) => a == audience
  | some (Json.arr xs) =>
      xs.any (fun j => match j with | Json.str a => a == audience | _ => false)
  | _ => false

/-- PyJWT issuer validation: `payload["iss"] != issuer` rejects. -/
def issOk (payload : List (String × Json)) (issuer : String) : Bool :=
  match alget payload "iss" with
  | some (Json.str i) => i == issuer
  | _ => false

/-- Model of `jwt.decode(token, key, algorithms=["RS256"], audience=...,
issuer=..., options={"require": ["exp", "sub"]})`: signature first, then
required claims, then `exp` (integral and not in the past), then audience,
then issuer; each failure raises the corresponding PyJWT exception. -/
def jwtDecode (sigOk : Jwk → Jwt → Bool) (key : Jwk) (tok : Jwt)
    (audience issuer : String) (now : Int) : Except PyError (List (String × Json)) :=
  if ¬ sigOk key tok then Except.error (PyError.jwtError "InvalidSignatureError")
  else if (alget tok.payload "exp").isNone then
    Except.error (PyError.jwtError "MissingRequiredClaimError")
  else if (alget tok.payload "sub").isNone then
    Except.error (PyError.jwtError "MissingRequiredClaimError")
  else
    match alget tok.payload "exp" with
    | some (Json.num e) =>
        if e < now then Except.error (PyError.jwtError "ExpiredSignatureError")
        else if ¬ audOk tok.payload audience then
          Except.error (PyError.jwtError "InvalidAudienceError")
        else if ¬ issOk tok.payload issuer then
          Except.error (PyError.jwtError "InvalidIssuerError")
        else Except.ok tok.payload
    | _ => Except.error (PyError.jwtError "DecodeError")

/-- Locate the JWKS entry whose `kid` matches; models
`next((k for k in keys if isinstance(k, dict) and k.get("kid") == kid), None)`. -/
def findJwk (keys : List Json) (kid : String) : Option Json :=
  keys.find? (fun j =>
    match j with
    | Json.obj fs =>
        match alget fs "kid" with
        | some (Json.str s) => s == kid
        | _ => false
    | _ => false)

/-- The de-duplication loop of `_scopes_from_claims` (`out`/`seen`). -/
def dedupeSeen (seen : List String) : List String → List String
  | [] => []
  | s :: rest => if s ∈ seen then dedupeSeen seen rest else s :: dedupeSeen (s :: seen) rest

/-- `Auth0TokenVerifier._scopes_from_claims`: tokens of the `scope` string
claim, then non-empty string elements of the `permissions` array claim,
de-duplicated preserving first occurrence. -/
def _scopes_from_claims (claims : List (String × Json)) : List String :=
  let fromScope : List String :=
    match alget claims "scope" with
    | some (Json.str s) =>
        if pyBlank s then [] else (pySplitSpace s).filter (fun t => t ≠ "")
    | _ => []
  let fromPerms : List String :=
    match alget claims "permissions" with
    | some (Json.arr ps) =>
        ps.filterMap (fun p =>
          match p with
          | Json.str q => if q ≠ "" then some q else none
          | _ => none)
    | _ => []
  dedupeSeen [] (fromScope ++ fromPerms)

/-- `Auth0TokenVerifier` configuration after `__init__` (issuer resolved). -/
structure VerifierConfig where
  auth0_domain : String
  audience : String
  issuer : String
  jwks_ttl_seconds : Int
deriving Repr

/-- `_JwksCache` dataclass of `auth0.py`. -/
structure JwksCacheEntry where
  jwks : Json
  fetched_at : Int
deriving Repr

/-- Mutable state of `Auth0TokenVerifier` (`self._cache`). -/
structure VerifierState where
  cache : Option JwksCacheEntry
deriving Repr

/-- The fetch-and-cache path of `Auth0TokenVerifier._get_jwks`. -/
def _fetch_jwks (env : JwtEnv) (st : VerifierState) (now : Int) :
    (Except PyError Json) × VerifierState :=
  match env.fetchJwks with
  | Except.error e => (Except.error e, st)
  | Except.ok j => (Except.ok j, { cache := some ⟨j, now⟩ })

/-- `Auth0TokenVerifier._get_jwks`: serve from cache inside the TTL,
otherwise fetch and cache.  A dataclass instance is always truthy, so only
presence and age are checked. -/
def _get_jwks (cfg : VerifierConfig) (env : JwtEnv) (st : VerifierState) (now : Int) :
    (Except PyError Json) × VerifierState :=
  match st.cache with
  | some c =>
      if now - c.fetched_at < cfg.jwks_ttl_seconds then (Except.ok c.jwks, st)
      else _fetch_jwks env st now
  | none => _fetch_jwks env st now

/-- The `keys` extraction of both verifiers: `jwks.get("keys") if
isinstance(jwks, dict) else None`, accepted only when it is a list. -/
def jwksKeys : Json → Option (List Json)
  | Json.obj fs =>
      match alget fs "keys" with
      | some (Json.arr ks) => some ks
      | _ => none
  | _ => none

/-- The body of `Auth0TokenVerifier.verify_token` before the enclosing
`try`/`except`: raised exceptions appear as `Except.error`, the explicit
`return None` paths as `Except.ok none`. -/
def verify_token_body (cfg : VerifierConfig) (env : JwtEnv) (st : VerifierState)
    (now : Int) (token : String) : (Except PyError (Option AccessToken)) × VerifierState :=
  match env.parseJwt token with
  | Except.error e => (Except.error e, st)
  | Except.ok tok =>
    match tok.header.kid with
    | none => (Except.ok none, st)
    | some kid =>
      if tok.header.alg ≠ some "RS256" ∨ kid = "" then (Except.ok none, st)
      else
        match _get_jwks cfg env st now with
        | (Except.error e, st1) => (Except.error e, st1)
        | (Except.ok jwks, st1) =>
          match jwksKeys jwks with
          | none => (Except.ok none, st1)
          | some ks =>
            match findJwk ks kid with
            | none => (Except.ok none, st1)
            | some jwk =>
              match env.fromJwk jwk with
              | Except.error e => (Except.error e, st1)
              | Except.ok key =>
                match jwtDecode env.sigOk key tok cfg.audience cfg.issuer now with
                | Except.error e => (Except.error e, st1)
                | Except.ok claims =>
                  match alget claims "sub" with
                  | some (Json.str sub) =>
                      if pyBlank sub then (Except.ok none, st1)
                      else
                        let expires_at : Option Int :=
                          match alget claims "exp" with
                          | some (Json.num e) => some e
                          | _ => none
                        (Except.ok (some
                          { token := token
                            client_id := sub
                            scopes := _scopes_from_claims claims
                            expires_at := expires_at
                            resource := some cfg.audience }), st1)
                  | _ => (Except.ok none, st1)

/-- `Auth0TokenVerifier.verify_token`: the body wrapped in
`try ... except Exception: return None`. -/
def verify_token (cfg : VerifierConfig) (env : JwtEnv) (st : VerifierState)
    (now : Int) (token : String) : Option AccessToken × VerifierState :=
  match verify_token_body cfg env st now token with
  | (Except.ok r, st') => (r, st')
  | (Except.error _, st') => (none, st')

/-- `_PendingAuth` dataclass of `oauth_provider.py`. -/
structure PendingAuth where
  client_id : String
  params : AuthorizationParams
deriving Repr, DecidableEq

/-- `Auth0BackedOAuthProvider` configuration from `__init__`
(strings already stripped of trailing slashes). -/
structure ProviderConfig where
  auth0_domain : String
  auth0_client_id : String
  auth0_client_secret : String
  public_base_url : String
deriving Repr

/-- Mutable in-memory state of `Auth0BackedOAuthProvider`: the pending
authorizations, authorization codes, the code-to-subject side map, the
access/refresh token maps, and the JWKS cache (the DB-backed client
registry is outside the claims and omitted). -/
structure ProviderState where
  pending : List (String × PendingAuth)
  auth_codes : List (String × AuthorizationCode)
  auth_code_subject : List (String × String)
  access_tokens : List (String × AccessToken)
  refresh_tokens : List (String × RefreshToken)
  jwks_cache : Option Json
  jwks_fetched_at : Int
deriving Repr

/-- Outcome of the upstream `POST https://{domain}/oauth/token` as seen by
the caller: a non-2xx status (so `raise_for_status` raises) or the parsed
JSON body. -/
inductive HttpResult where
  | failure (status : Nat)
  | success (body : List (String × Json))

/-- Environment for `complete_auth0_callback`: the JWT/JWKS oracles, the
outcome of the upstream code exchange, and `urllib.parse.urlencode`. -/
structure CallbackEnv where
  jwt : JwtEnv
  tokenPost : HttpResult
  urlencode : List (String × String) → String

/-- `Auth0BackedOAuthProvider.load_authorization_code`: look up the code,
check it belongs to the requesting client and has not expired. -/
def load_authorization_code (st : ProviderState) (client_id : String)
    (authorization_code : String) (now : Int) : Option AuthorizationCode :=
  match alget st.auth_codes authorization_code with
  | none => none
  | some ac =>
      if ac.client_id ≠ client_id then none
      else if ac.expires_at < now then none
      else some ac

/-- `Auth0BackedOAuthProvider.exchange_authorization_code`: `access` and
`refresh` are the two fresh `secrets.token_urlsafe(32)` strings.  Looks up
the authenticated subject in the side map (failing with `invalid_grant`
when absent or empty), stores the new access/refresh tokens bound to that
subject, then deletes the code and its subject entry (one-time use). -/
def exchange_authorization_code (cfg : ProviderConfig) (st : ProviderState)
    (authorization_code : AuthorizationCode) (access refresh : String) (now : Int) :
    (Except PyError OAuthToken) × ProviderState :=
  let expires_at := now + 60 * 60
  let scopes := authorization_code.scopes
  match alget st.auth_code_subject authorization_code.code with
  | none =>
      (Except.error (PyError.tokenError "invalid_grant" "Unknown authorization code subject"), st)
  | some user_subject =>
      if user_subject = "" then
        (Except.error (PyError.tokenError "invalid_grant" "Unknown authorization code subject"), st)
      else
        let st1 := { st with
          access_tokens := alput st.access_tokens access
            { token := access
              client_id := user_subject
              scopes := scopes
              expires_at := some expires_at
              resource := some (cfg.public_base_url ++ "/") }
          refresh_tokens := alput st.refresh_tokens refresh
            { token := refresh
              client_id := user_subject
              scopes := scopes
              expires_at := none } }
        let st2 := { st1 with
          auth_codes := alpop st1.auth_codes authorization_code.code
          auth_code_subject := alpop st1.auth_code_subject authorization_code.code }
        (Except.ok
          { access_token := access
            token_type := "bearer"
            expires_in := 3600
            refresh_token := refresh
            scope := String.intercalate " " scopes }, st2)

/-- `Auth0BackedOAuthProvider.load_refresh_token`: plain map lookup, no
client or expiry check. -/
def load_refresh_token (st : ProviderState) (refresh_token : String) : Option RefreshToken :=
  alget st.refresh_tokens refresh_token

/-- `Auth0BackedOAuthProvider.exchange_refresh_token`: mint a fresh
access/refresh pair bound to the old token's subject, with the requested
scopes when non-empty (`scopes or refresh_token.scopes`), then delete the
old refresh token. -/
def exchange_refresh_token (cfg : ProviderConfig) (st : ProviderState)
    (refresh_token : RefreshToken) (scopes : List String) (access refresh : String)
    (now : Int) : OAuthToken × ProviderState :=
  let expires_at := now + 60 * 60
  let requested_scopes := if scopes.isEmpty then refresh_token.scopes else scopes
  let user_subject := refresh_token.client_id
  let st1 := { st with
    access_tokens := alput st.access_tokens access
      { token := access
        client_id := user_subject
        scopes := requested_scopes
        expires_at := some expires_at
        resource := some (cfg.public_base_url ++ "/") }
    refresh_tokens := alput st.refresh_tokens refresh
      { token := refresh
        client_id := user_subject
        scopes := requested_scopes
        expires_at := none } }
  let st2 := { st1 with refresh_tokens := alpop st1.refresh_tokens refresh_token.token }
  ({ access_token := access
     token_type := "bearer"
     expires_in := 3600
     refresh_token := refresh
     scope := String.intercalate " " requested_scopes }, st2)

/-- `Auth0BackedOAuthProvider.load_access_token`: look up the token and
reject it only when `expires_at` is truthy (not `None`, not `0`) and
strictly less than the current time. -/
def load_access_token (st : ProviderState) (token : String) (now : Int) : Option AccessToken :=
  match alget st.access_tokens token with
  | none => none
  | some tk =>
      match tk.expires_at with
      | some e => if e ≠ 0 ∧ e < now then none else some tk
      | none => some tk

/-- The fetch-and-cache path of `Auth0BackedOAuthProvider._get_auth0_jwks`. -/
def _fetch_auth0_jwks (env : JwtEnv) (st : ProviderState) (now : Int) :
    (Except PyError Json) × ProviderState :=
  match env.fetchJwks with
  | Except.error e => (Except.error e, st)
  | Except.ok j => (Except.ok j, { st with jwks_cache := some j, jwks_fetched_at := now })

/-- `Auth0BackedOAuthProvider._get_auth0_jwks`: dict truthiness guards the
cache (an empty or otherwise falsy cached document is refetched). -/
def _get_auth0_jwks (env : JwtEnv) (st : ProviderState) (now : Int) :
    (Except PyError Json) × ProviderState :=
  match st.jwks_cache with
  | some c =>
      if c.truthy ∧ now - st.jwks_fetched_at < 600 then (Except.ok c, st)
      else _fetch_auth0_jwks env st now
  | none => _fetch_auth0_jwks env st now

/-- `Auth0BackedOAuthProvider._verify_auth0_id_token`: header sanity
(`RS256`, truthy `kid`), JWKS lookup by `kid`, key construction, then
`jwt.decode` against the configured audience/issuer, and finally the `sub`
well-formedness check; returns the verified subject. -/
def _verify_auth0_id_token (cfg : ProviderConfig) (env : JwtEnv) (st : ProviderState)
    (now : Int) (id_token : String) : (Except PyError String) × ProviderState :=
  match env.parseJwt id_token with
  | Except.error e => (Except.error e, st)
  | Except.ok tok =>
    match tok.header.kid with
    | none => (Except.error (PyError.tokenError "invalid_grant" "Invalid id_token header"), st)
    | some kid =>
      if tok.header.alg ≠ some "RS256" ∨ kid = "" then
        (Except.error (PyError.tokenError "invalid_grant" "Invalid id_token header"), st)
      else
        match _get_auth0_jwks env st now with
        | (Except.error e, st1) => (Except.error e, st1)
        | (Except.ok jwks, st1) =>
          match jwksKeys jwks with
          | none => (Except.error (PyError.tokenError "invalid_grant" "Invalid JWKS"), st1)
          | some ks =>
            match findJwk ks kid with
            | none => (Except.error (PyError.tokenError "invalid_grant" "Unknown signing key"), st1)
            | some jwk =>
              match env.fromJwk jwk with
              | Except.error e => (Except.error e, st1)
              | Except.ok key =>
                match jwtDecode env.sigOk key tok cfg.auth0_client_id
                    ("https://" ++ cfg.auth0_domain ++ "/") now with
                | Except.error e => (Except.error e, st1)
                | Except.ok claims =>
                  match alget claims "sub" with
                  | some (Json.str sub) =>
                      if pyBlank sub then
                        (Except.error (PyError.tokenError "invalid_grant" "Missing sub claim"), st1)
                      else (Except.ok sub, st1)
                  | _ => (Except.error (PyError.tokenError "invalid_grant" "Missing sub claim"), st1)

/-- `Auth0BackedOAuthProvider.complete_auth0_callback`: pop the pending
authorization for `state` (failing closed when absent), exchange the
upstream `code` (the outcome is `env.tokenPost`), require a string
`id_token` in the response, verify it, then mint the one-time MCP
authorization code (`mcp_code` is the fresh `secrets.token_urlsafe(24)`
string, expiring in 60 seconds) bound to the original client, record the
verified subject in the side map, and build the redirect URL back to the
client. -/
def complete_auth0_callback (cfg : ProviderConfig) (env : CallbackEnv)
    (st : ProviderState) (now : Int) (state code : String) (mcp_code : String) :
    (Except PyError String) × ProviderState :=
  let pending? := alget st.pending state
  let st1 := { st with pending := alpop st.pending state }
  match pending? with
  | none => (Except.error (PyError.tokenError "invalid_grant" "Unknown or expired state"), st1)
  | some pending =>
    match env.tokenPost with
    | HttpResult.failure status => (Except.error (PyError.httpStatusError status), st1)
    | HttpResult.success data =>
      match alget data "id_token" with
      | some (Json.str id_token) =>
        match _verify_auth0_id_token cfg env.jwt st1 now id_token with
        | (Except.error e, st2) => (Except.error e, st2)
        | (Except.ok user_subject, st2) =>
          let expires_at := now + 60
          let scopes := pending.params.scopes.getD []
          let st3 := { st2 with
            auth_codes := alput st2.auth_codes mcp_code
              { code := mcp_code
                scopes := scopes
                expires_at := expires_at
                client_id := pending.client_id
                code_challenge := pending.params.code_challenge
                redirect_uri := pending.params.redirect_uri
                redirect_uri_provided_explicitly := pending.params.redirect_uri_provided_explicitly
                resource := pending.params.resource }
            auth_code_subject := alput st2.auth_code_subject mcp_code user_subject }
          let q : List (String × String) :=
            ("code", mcp_code) ::
              (match pending.params.state with
               | some s => if s ≠ "" then [("state", s)] else []
               | none => [])
          let sep := if pyContainsChar pending.params.redirect_uri '?' then "&" else "?"
          (Except.ok (pending.params.redirect_uri ++ sep ++ env.urlencode q), st3)
      | _ => (Except.error (PyError.tokenError "invalid_grant" "Auth0 did not return id_token"), st1)

/-- The scope derivation exactly as the claim words it: the space-separated
non-empty tokens of the scope string claim (when present), followed by the
string elements of the permissions array claim (all of them, empty strings
included), with duplicates removed preserving first occurrence.  Written
for comparison with `_scopes_from_claims`. -/
def scopesFromClaimsClaimed (claims : List (String × Json)) : List String :=
  let scopeTokens : List String :=
    match alget claims "scope" with
    | some (Json.str s) => (pySplitSpace s).filter (fun t => t ≠ "")
    | _ => []
  let permStrings : List String :=
    match alget claims "permissions" with
    | some (Json.arr ps) =>
        ps.filterMap (fun p => match p with | Json.str q => some q | _ => none)
    | _ => []
  dedupeSeen [] (scopeTokens ++ permStrings)

/-- The amended scope derivation: as the claim states it, except that a
whitespace-only scope string contributes nothing and only the NON-EMPTY
string elements of the permissions array are kept. -/
def scopesFromClaimsAmended (claims : List (String × Json)) : List String :=
  let scopeTokens : List String :=
    match alget claims "scope" with
    | some (Json.str s) =>
        if pyBlank s then [] else (pySplitSpace s).filter (fun t => t ≠ "")
    | _ => []
  let permStrings : List String :=
    match alget claims "permissions" with
    | some (Json.arr ps) =>
        (ps.filterMap (fun p => match p with | Json.str q => some q | _ => none)).filter
          (fun q => q ≠ "")
    | _ => []
  dedupeSeen [] (scopeTokens ++ permStrings)

/-- The real JWT/JWKS libraries raise their own exception types, never the
MCP `TokenError`; environments modelling them satisfy this. -/
def JwtEnv.noTokenError (env : JwtEnv) : Prop :=
  (∀ s ec d, env.parseJwt s ≠ Except.error (PyError.tokenError ec d)) ∧
  (∀ ec d, env.fetchJwks ≠ Except.error (PyError.tokenError ec d)) ∧
  (∀ j ec d, env.fromJwk j ≠ Except.error (PyError.tokenError ec d))

/-- Concrete provider configuration used by the evaluation fixtures. -/
def cfg0 : ProviderConfig :=
  { auth0_domain := "tenant.auth0.com"
    auth0_client_id := "auth0-client"
    auth0_client_secret := "s3cret"
    public_base_url := "https://mcp.example" }

/-- A well-formed Auth0 identity token for `cfg0` (claims match the
configured audience and issuer). -/
def idJwt0 : Jwt :=
  { header := { alg := some "RS256", kid := some "k1" }
    payload :=
      [("exp", Json.num 1000000),
       ("sub", Json.str "auth0|user-1"),
       ("aud", Json.str "auth0-client"),
       ("iss", Json.str "https://tenant.auth0.com/")] }

/-- A JWKS document holding the key `k1`. -/
def jwks0 : Json :=
  Json.obj [("keys", Json.arr [Json.obj [("kid", Json.str "k1"), ("kty", Json.str "RSA")]])]

/-- Oracle environment where everything succeeds and every signature
verifies; the only parseable token string is "idtok". -/
def jwtEnv0 : JwtEnv :=
  { parseJwt := fun s =>
      if s = "idtok" then Except.ok idJwt0 else Except.error (PyError.jwtError "DecodeError")
    fetchJwks := Except.ok jwks0
    fromJwk := fun j => Except.ok ⟨j⟩
    sigOk := fun _ _ => true }

/-- Same environment but no signature verifies. -/
def jwtEnvBadSig : JwtEnv :=
  { jwtEnv0 with sigOk := fun _ _ => false }

/-- Callback environment: upstream code exchange succeeds and returns the
identity token "idtok". -/
def cbEnv0 : CallbackEnv :=
  { jwt := jwtEnv0
    tokenPost :=
      HttpResult.success
        [("access_token", Json.str "upstream-at"), ("id_token", Json.str "idtok")]
    urlencode := fun q => String.intercalate "&" (q.map (fun p => p.1 ++ "=" ++ p.2)) }

/-- Callback environment whose upstream token exchange fails with HTTP 500. -/
def cbEnv500 : CallbackEnv :=
  { cbEnv0 with tokenPost := HttpResult.failure 500 }

/-- The authorization parameters of the pending authorization fixture. -/
def params0 : AuthorizationParams :=
  { state := some "client-state"
    scopes := some ["tool:tasks"]
    code_challenge := "chal"
    redirect_uri := "https://client.example/cb"
    redirect_uri_provided_explicitly := true
    resource := none }

/-- The pending authorization stored under state "state-1". -/
def pending0 : PendingAuth := { client_id := "mcp-client-1", params := params0 }

/-- Provider state holding exactly the pending authorization "state-1". -/
def st0 : ProviderState :=
  { pending := [("state-1", pending0)]
    auth_codes := []
    auth_code_subject := []
    access_tokens := []
    refresh_tokens := []
    jwks_cache := none
    jwks_fetched_at := 0 }

/-- An authorization code record as the callback would mint it. -/
def ac0 : AuthorizationCode :=
  { code := "code-1"
    scopes := ["tool:tasks"]
    expires_at := 65
    client_id := "mcp-client-1"
    code_challenge := "chal"
    redirect_uri := "https://client.example/cb"
    redirect_uri_provided_explicitly := true
    resource := none }

/-- Provider state holding `ac0` and its subject side-map entry. -/
def stCode : ProviderState :=
  { st0 with
    pending := []
    auth_codes := [("code-1", ac0)]
    auth_code_subject := [("code-1", "auth0|user-1")] }

/-- A stored refresh token fixture. -/
def rt0 : RefreshToken :=
  { token := "refresh-old"
    client_id := "auth0|user-1"
    scopes := ["tool:tasks", "tool:notifications"]
    expires_at := none }

/-- Provider state holding `rt0`. -/
def stRefresh : ProviderState :=
  { st0 with pending := [], refresh_tokens := [("refresh-old", rt0)] }

/-- Verifier configuration fixture (issuer resolved as in `__init__`). -/
def vcfg0 : VerifierConfig :=
  { auth0_domain := "tenant.auth0.com"
    audience := "https://api.example"
    issuer := "https://tenant.auth0.com/"
    jwks_ttl_seconds := 600 }

/-- An access-token JWT for the standalone verifier fixture. -/
def apiJwt0 : Jwt :=
  { header := { alg := some "RS256", kid := some "k1" }
    payload :=
      [("exp", Json.num 1000000),
       ("sub", Json.str "auth0|user-1"),
       ("aud", Json.str "https://api.example"),
       ("iss", Json.str "https://tenant.auth0.com/"),
       ("scope", Json.str "read:tasks write:tasks"),
       ("permissions", Json.arr [Json.str "admin", Json.str "read:tasks"])] }

/-- Oracle environment for the standalone verifier where "apitok" parses to
`apiJwt0` and every signature verifies. -/
def vEnv0 : JwtEnv :=
  { parseJwt := fun s =>
      if s = "apitok" then Except.ok apiJwt0 else Except.error (PyError.jwtError "DecodeError")
    fetchJwks := Except.ok jwks0
    fromJwk := fun j => Except.ok ⟨j⟩
    sigOk := fun _ _ => true }

/-- Environment whose JWT parse always raises. -/
def vEnvBoom : JwtEnv :=
  { vEnv0 with parseJwt := fun _ => Except.error (PyError.libError "boom") }

/-! ### Association-list lemmas -/

theorem alget_alpop_self {α : Type} (m : List (String × α)) (k : String) :
    alget (alpop m k) k = none := by
  induction m with
  | nil => rfl
  | cons p rest ih =>
      obtain ⟨a, b⟩ := p
      by_cases h : a = k
      · simpa [alpop, List.filter_cons, h] using ih
      · simpa [alpop, List.filter_cons, h, alget] using ih

theorem alget_alpop_ne {α : Type} (m : List (String × α)) {k k' : String} (h : k' ≠ k) :
    alget (alpop m k) k' = alget m k' := by
  induction m with
  | nil => rfl
  | cons p rest ih =>
      obtain ⟨a, b⟩ := p
      by_cases ha : a = k
      · subst ha
        simpa [alpop, List.filter_cons, alget, Ne.symm h] using ih
      · by_cases ha' : a = k'
        · subst ha'
          simp [alpop, List.filter_cons, alget, ha]
        · simpa [alpop, List.filter_cons, ha, ha', alget] using ih

theorem alget_alput_self {α : Type} (m : List (String × α)) (k : String) (v : α) :
    alget (alput m k v) k = some v := by
  simp [alput, alget]

theorem alget_alput_ne {α : Type} (m : List (String × α)) {k k' : String} (v : α)
    (h : k' ≠ k) :
    alget (alput m k v) k' = alget m k' := by
  have h2 : alget (alpop m k) k' = alget m k' := alget_alpop_ne m h
  simp only [alput, alget]
  rw [if_neg (Ne.symm h)]
  exact h2

/-! ### Inversion and preservation helpers -/

theorem jwtDecode_ok_inv {sig : Jwk → Jwt → Bool} {key : Jwk} {tok : Jwt}
    {audience issuer : String} {now : Int} {claims : List (String × Json)}
    (h : jwtDecode sig key tok audience issuer now = Except.ok claims) :
    claims = tok.payload ∧ sig key tok = true ∧
    (∃ e, alget tok.payload "exp" = some (Json.num e) ∧ now ≤ e) ∧
    audOk tok.payload audience = true ∧ issOk tok.payload issuer = true := by
  unfold jwtDecode at h
  by_cases h1 : sig key tok
  · rcases he : alget tok.payload "exp" with _ | je
    · simp [h1, he] at h
    · rcases hsub : alget tok.payload "sub" with _ | js
      · simp [h1, he, hsub] at h
      · rcases je with _ | b | e | s2 | xs | fs
        · simp [h1, he, hsub] at h
        · simp [h1, he, hsub] at h
        · by_cases hlt : e < now
          · simp [h1, he, hsub, hlt] at h
          · by_cases haud : audOk tok.payload audience
            · by_cases hiss : issOk tok.payload issuer
              · refine ⟨?_, h1, ⟨e, rfl, not_lt.mp hlt⟩, haud, hiss⟩
                simp [h1, he, hsub, hlt, haud, hiss] at h
                exact h.symm
              · simp [h1, he, hsub, hlt, haud, hiss] at h
            · simp [h1, he, hsub, hlt, haud] at h
        · simp [h1, he, hsub] at h
        · simp [h1, he, hsub] at h
        · simp [h1, he, hsub] at h
  · simp [h1] at h

theorem jwtDecode_error_inv {sig : Jwk → Jwt → Bool} {key : Jwk} {tok : Jwt}
    {audience issuer : String} {now : Int} {e : PyError}
    (h : jwtDecode sig key tok audience issuer now = Except.error e) :
    ∃ k, e = PyError.jwtError k := by
  unfold jwtDecode at h
  repeat' split at h
  all_goals simp_all
  all_goals exact ⟨_, h.symm⟩

theorem findJwk_some_inv {keys : List Json} {kid : String} {j : Json}
    (h : findJwk keys kid = some j) :
    ∃ fs, j = Json.obj fs ∧ alget fs "kid" = some (Json.str kid) := by
  unfold findJwk at h
  have hp := List.find?_some h
  rcases j with _ | b | n | s | xs | fs <;> simp at hp
  rcases hk : alget fs "kid" with _ | jk
  · rw [hk] at hp; simp at hp
  · rw [hk] at hp
    rcases jk with _ | b2 | n2 | s2 | xs2 | fs2 <;> simp at hp
    exact ⟨fs, rfl, by rw [hk, hp]⟩

theorem _fetch_auth0_jwks_pending (env : JwtEnv) (st : ProviderState) (now : Int) :
    (_fetch_auth0_jwks env st now).2.pending = st.pending := by
  unfold _fetch_auth0_jwks
  rcases h : env.fetchJwks with e | j <;> simp [h]

theorem _get_auth0_jwks_pending (env : JwtEnv) (st : ProviderState) (now : Int) :
    (_get_auth0_jwks env st now).2.pending = st.pending := by
  unfold _get_auth0_jwks
  split
  · split
    · rfl
    · exact _fetch_auth0_jwks_pending env st now
  · exact _fetch_auth0_jwks_pending env st now

theorem _verify_auth0_id_token_state (cfg : ProviderConfig) (env : JwtEnv)
    (st : ProviderState) (now : Int) (t : String) :
    (_verify_auth0_id_token cfg env st now t).2 = st ∨
    (_verify_auth0_id_token cfg env st now t).2 = (_get_auth0_jwks env st now).2 := by
  unfold _verify_auth0_id_token
  repeat' split
  all_goals try (left; rfl)
  all_goals (right; simp_all)

theorem _verify_auth0_id_token_pending (cfg : ProviderConfig) (env : JwtEnv)
    (st : ProviderState) (now : Int) (t : String) :
    (_verify_auth0_id_token cfg env st now t).2.pending = st.pending := by
  rcases _verify_auth0_id_token_state cfg env st now t with h | h
  · rw [h]
  · rw [h]; exact _get_auth0_jwks_pending env st now

/-! ### Claim theorems -/

/-- C1: the first successful `exchange_authorization_code` removes both the
code's entry in the authorization-code map and its entry in the
code-to-subject side map, so any subsequent `load_authorization_code` for
the same code string returns `none` (for every client and time) and a
replayed exchange fails with `invalid_grant`. -/
theorem auth_code_single_use (cfg : ProviderConfig) (st : ProviderState)
    (ac : AuthorizationCode) (access refresh : String) (now : Int)
    (tok : OAuthToken) (st' : ProviderState)
    (h : exchange_authorization_code cfg st ac access refresh now = (Except.ok tok, st')) :
    alget st'.auth_codes ac.code = none ∧
    alget st'.auth_code_subject ac.code = none ∧
    (∀ cid now2, load_authorization_code st' cid ac.code now2 = none) ∧
    (∀ a2 r2 n2,
      (exchange_authorization_code cfg st' ac a2 r2 n2).1 =
        Except.error (PyError.tokenError "invalid_grant" "Unknown authorization code subject")) := by
  rcases hs : alget st.auth_code_subject ac.code with _ | u
  · simp [exchange_authorization_code, hs] at h
  · by_cases hu : u = ""
    · simp [exchange_authorization_code, hs, hu] at h
    · simp only [exchange_authorization_code, hs, hu, if_false, Prod.mk.injEq] at h
      obtain ⟨-, hst⟩ := h
      subst hst
      refine ⟨alget_alpop_self _ _, alget_alpop_self _ _, ?_, ?_⟩
      · intro cid now2
        simp [load_authorization_code, alget_alpop_self]
      · intro a2 r2 n2
        simp [exchange_authorization_code, alget_alpop_self]

/-- C1 witness: a concrete successful exchange of the stored code
"code-1", after which the code loads as `none` and a replay fails. -/
theorem auth_code_single_use_witness :
    alget (exchange_authorization_code cfg0 stCode ac0 "acc-1" "ref-1" 5).2.auth_codes
        "code-1" = none ∧
    alget (exchange_authorization_code cfg0 stCode ac0 "acc-1" "ref-1" 5).2.auth_code_subject
        "code-1" = none ∧
    load_authorization_code (exchange_authorization_code cfg0 stCode ac0 "acc-1" "ref-1" 5).2
      "mcp-client-1" "code-1" 50 = none ∧
    (exchange_authorization_code cfg0
        (exchange_authorization_code cfg0 stCode ac0 "acc-1" "ref-1" 5).2 ac0 "a2" "r2" 50).1 =
      Except.error (PyError.tokenError "invalid_grant" "Unknown authorization code subject") := by
  obtain ⟨h1, h2, h3, h4⟩ :=
    auth_code_single_use cfg0 stCode ac0 "acc-1" "ref-1" 5
      { access_token := "acc-1", token_type := "bearer", expires_in := 3600,
        refresh_token := "ref-1", scope := "tool:tasks" }
      (exchange_authorization_code cfg0 stCode ac0 "acc-1" "ref-1" 5).2 (by rfl)
  exact ⟨h1, h2, h3 "mcp-client-1" 50, h4 "a2" "r2" 50⟩

/-- C2 (amended): the access token minted by `exchange_authorization_code`
records an expiry exactly 3600 seconds after issuance; `load_access_token`
returns it for every lookup at or before that expiry (including exactly at
the expiry) and returns `none` for every lookup strictly after it. -/
theorem access_token_one_hour_expiry (cfg : ProviderConfig) (st : ProviderState)
    (ac : AuthorizationCode) (access refresh : String) (now : Int)
    (tok : OAuthToken) (st' : ProviderState)
    (hnow : 0 ≤ now)
    (h : exchange_authorization_code cfg st ac access refresh now = (Except.ok tok, st')) :
    ∃ a, alget st'.access_tokens access = some a ∧
      a.expires_at = some (now + 3600) ∧
      (∀ t, t ≤ now + 3600 → load_access_token st' access t = some a) ∧
      (∀ t, now + 3600 < t → load_access_token st' access t = none) := by
  rcases hs : alget st.auth_code_subject ac.code with _ | u
  · simp [exchange_authorization_code, hs] at h
  · by_cases hu : u = ""
    · simp [exchange_authorization_code, hs, hu] at h
    · simp only [exchange_authorization_code, hs, hu, if_false, Prod.mk.injEq] at h
      obtain ⟨-, hst⟩ := h
      subst hst
      have h60 : (60 : Int) * 60 = 3600 := by norm_num
      refine ⟨_, alget_alput_self _ _ _, by simp [h60], ?_, ?_⟩
      · intro t ht
        simp only [load_access_token, alget_alput_self]
        rw [if_neg]
        rintro ⟨-, hlt⟩
        rw [h60] at hlt
        exact absurd (lt_of_le_of_lt ht hlt) (lt_irrefl t)
      · intro t ht
        simp only [load_access_token, alget_alput_self]
        rw [if_pos]
        refine ⟨by rw [h60]; omega, by rw [h60]; omega⟩

/-- C2 witness: the token minted at time 5 (expiry 3605) is rejected at
time 3606, strictly after its recorded expiry. -/
theorem access_token_one_hour_expiry_witness :
    load_access_token (exchange_authorization_code cfg0 stCode ac0 "acc-1" "ref-1" 5).2
      "acc-1" 3606 = none := by
  obtain ⟨a, -, -, -, h4⟩ :=
    access_token_one_hour_expiry cfg0 stCode ac0 "acc-1" "ref-1" 5
      { access_token := "acc-1", token_type := "bearer", expires_in := 3600,
        refresh_token := "ref-1", scope := "tool:tasks" }
      (exchange_authorization_code cfg0 stCode ac0 "acc-1" "ref-1" 5).2 (by norm_num) (by rfl)
  exact h4 3606 (by norm_num)

/-- C2 counterexample: the token minted at time 5 records expiry 3605, yet
`load_access_token` at exactly time 3605 still returns it — the code
rejects only strictly after the recorded expiry, so "returns None for every
lookup at or after the recorded expiry" is false. -/
theorem access_token_boundary_counterexample :
    (alget (exchange_authorization_code cfg0 stCode ac0 "acc-1" "ref-1" 5).2.access_tokens
        "acc-1").map (fun a => a.expires_at) = some (some 3605) ∧
    (load_access_token (exchange_authorization_code cfg0 stCode ac0 "acc-1" "ref-1" 5).2
        "acc-1" 3605).isSome = true := ⟨rfl, rfl⟩

/-- C5: a successful `exchange_refresh_token` stores a new access token and
a new refresh token both bound to the old refresh token's subject, both of
which validate (`load_access_token` at mint time, `load_refresh_token`),
and removes the old refresh token so that loading it returns `none`. -/
theorem refresh_rotation (cfg : ProviderConfig) (st : ProviderState)
    (rt : RefreshToken) (scopes : List String) (access refresh : String) (now : Int)
    (hfresh : refresh ≠ rt.token) :
    (∃ a, alget (exchange_refresh_token cfg st rt scopes access refresh now).2.access_tokens
        access = some a ∧ a.client_id = rt.client_id ∧
      load_access_token (exchange_refresh_token cfg st rt scopes access refresh now).2
        access now = some a) ∧
    (∃ r2, alget (exchange_refresh_token cfg st rt scopes access refresh now).2.refresh_tokens
        refresh = some r2 ∧ r2.client_id = rt.client_id ∧
      load_refresh_token (exchange_refresh_token cfg st rt scopes access refresh now).2
        refresh = some r2) ∧
    load_refresh_token (exchange_refresh_token cfg st rt scopes access refresh now).2
      rt.token = none := by
  refine ⟨⟨{ token := access, client_id := rt.client_id,
             scopes := if scopes.isEmpty then rt.scopes else scopes,
             expires_at := some (now + 60 * 60),
             resource := some (cfg.public_base_url ++ "/") }, ?_, rfl, ?_⟩,
          ⟨{ token := refresh, client_id := rt.client_id,
             scopes := if scopes.isEmpty then rt.scopes else scopes,
             expires_at := none }, ?_, rfl, ?_⟩, ?_⟩
  · simp [exchange_refresh_token, alget_alput_self]
  · simp only [exchange_refresh_token, load_access_token, alget_alput_self]
    rw [if_neg]
    rintro ⟨-, hlt⟩
    have h60 : (60 : Int) * 60 = 3600 := by norm_num
    omega
  · simp only [exchange_refresh_token]
    rw [alget_alpop_ne _ hfresh, alget_alput_self]
  · simp only [exchange_refresh_token, load_refresh_token]
    rw [alget_alpop_ne _ hfresh, alget_alput_self]
  · simp only [exchange_refresh_token, load_refresh_token]
    exact alget_alpop_self _ _

/-- C5 witness: rotating the stored refresh token "refresh-old": the old
token no longer loads, the new pair validates. -/
theorem refresh_rotation_witness :
    load_refresh_token (exchange_refresh_token cfg0 stRefresh rt0 [] "acc-2" "ref-2" 10).2
      "refresh-old" = none ∧
    (load_refresh_token (exchange_refresh_token cfg0 stRefresh rt0 [] "acc-2" "ref-2" 10).2
      "ref-2").isSome = true ∧
    (load_access_token (exchange_refresh_token cfg0 stRefresh rt0 [] "acc-2" "ref-2" 10).2
      "acc-2" 10).isSome = true := by
  obtain ⟨⟨a, -, -, ha⟩, ⟨r2, -, -, hr⟩, hold⟩ :=
    refresh_rotation cfg0 stRefresh rt0 [] "acc-2" "ref-2" 10 (by decide)
  exact ⟨hold, by rw [hr]; rfl, by rw [ha]; rfl⟩

/-- C10: `exchange_refresh_token` grants exactly the requested scopes
whenever the requested list is non-empty — with no check that they are a
subset of the scopes bound to the old refresh token — and falls back to the
old token's scopes only when the requested list is empty. -/
theorem refresh_scopes_requested (cfg : ProviderConfig) (st : ProviderState)
    (rt : RefreshToken) (scopes : List String) (access refresh : String) (now : Int)
    (hfresh : refresh ≠ rt.token) :
    (scopes ≠ [] →
      (alget (exchange_refresh_token cfg st rt scopes access refresh now).2.access_tokens
          access).map (fun a => a.scopes) = some scopes ∧
      (alget (exchange_refresh_token cfg st rt scopes access refresh now).2.refresh_tokens
          refresh).map (fun r => r.scopes) = some scopes ∧
      (exchange_refresh_token cfg st rt scopes access refresh now).1.scope =
        String.intercalate " " scopes) ∧
    (scopes = [] →
      (alget (exchange_refresh_token cfg st rt scopes access refresh now).2.access_tokens
          access).map (fun a => a.scopes) = some rt.scopes ∧
      (alget (exchange_refresh_token cfg st rt scopes access refresh now).2.refresh_tokens
          refresh).map (fun r => r.scopes) = some rt.scopes ∧
      (exchange_refresh_token cfg st rt scopes access refresh now).1.scope =
        String.intercalate " " rt.scopes) := by
  constructor
  · intro hne
    have hempty : scopes.isEmpty = false := by
      cases scopes with
      | nil => exact absurd rfl hne
      | cons a l => rfl
    refine ⟨?_, ?_, ?_⟩
    · simp [exchange_refresh_token, alget_alput_self, hempty]
    · simp only [exchange_refresh_token, hempty]
      rw [alget_alpop_ne _ hfresh, alget_alput_self]
      rfl
    · simp [exchange_refresh_token, hempty]
  · intro he
    subst he
    refine ⟨?_, ?_, ?_⟩
    · simp [exchange_refresh_token, alget_alput_self]
    · simp only [exchange_refresh_token]
      rw [alget_alpop_ne _ hfresh, alget_alput_self]
      rfl
    · simp [exchange_refresh_token]

/-- C10 witness: requesting a scope list that is not a subset of the old
token's scopes still succeeds and grants exactly the requested list. -/
theorem refresh_scopes_requested_witness :
    (alget (exchange_refresh_token cfg0 stRefresh rt0 ["not-originally-granted"]
        "acc-3" "ref-3" 10).2.access_tokens "acc-3").map (fun a => a.scopes) =
      some ["not-originally-granted"] ∧
    (alget (exchange_refresh_token cfg0 stRefresh rt0 ["not-originally-granted"]
        "acc-3" "ref-3" 10).2.refresh_tokens "ref-3").map (fun r => r.scopes) =
      some ["not-originally-granted"] ∧
    (exchange_refresh_token cfg0 stRefresh rt0 ["not-originally-granted"]
        "acc-3" "ref-3" 10).1.scope =
      String.intercalate " " ["not-originally-granted"] :=
  (refresh_scopes_requested cfg0 stRefresh rt0 ["not-originally-granted"]
      "acc-3" "ref-3" 10 (by decide)).1 (by decide)

/-- C4: every call to `complete_auth0_callback` leaves no pending entry for
the consumed `state` (it is popped on entry, whatever the outcome), and a
call with an absent state — never issued or already consumed — fails with
`invalid_grant` identically for every upstream environment, i.e. before any
request is made to the upstream identity provider. -/
theorem state_single_use (cfg : ProviderConfig) (env : CallbackEnv) (st : ProviderState)
    (now : Int) (state code mcp_code : String) :
    alget (complete_auth0_callback cfg env st now state code mcp_code).2.pending state =
      none ∧
    (alget st.pending state = none →
      ∀ env2 : CallbackEnv,
        complete_auth0_callback cfg env2 st now state code mcp_code =
          (Except.error (PyError.tokenError "invalid_grant" "Unknown or expired state"),
           { st with pending := alpop st.pending state })) := by
  constructor
  · have hbase : alget (alpop st.pending state) state = none := alget_alpop_self _ _
    rcases hp : alget st.pending state with _ | pending
    · simpa [complete_auth0_callback, hp] using hbase
    · rcases htp : env.tokenPost with status | data
      · simpa [complete_auth0_callback, hp, htp] using hbase
      · rcases hit : alget data "id_token" with _ | j
        · simpa [complete_auth0_callback, hp, htp, hit] using hbase
        · have hverify := fun t =>
            _verify_auth0_id_token_pending cfg env.jwt
              { st with pending := alpop st.pending state } now t
          rcases j with _ | b | n | idt | xs | fs
          · simpa [complete_auth0_callback, hp, htp, hit] using hbase
          · simpa [complete_auth0_callback, hp, htp, hit] using hbase
          · simpa [complete_auth0_callback, hp, htp, hit] using hbase
          · rcases hv : _verify_auth0_id_token cfg env.jwt
                { st with pending := alpop st.pending state } now idt with ⟨r, st2⟩
            have hst2 : st2.pending = alpop st.pending state := by
              have := hverify idt
              rw [hv] at this
              exact this
            rcases r with e | u
            · simp only [complete_auth0_callback, hp, htp, hit, hv]
              simpa [hst2] using hbase
            · simp only [complete_auth0_callback, hp, htp, hit, hv]
              simpa [hst2] using hbase
          · simpa [complete_auth0_callback, hp, htp, hit] using hbase
          · simpa [complete_auth0_callback, hp, htp, hit] using hbase
  · intro hnone env2
    simp [complete_auth0_callback, hnone]

/-- C4 witness: consuming an unknown state "nope" removes nothing, fails
with `invalid_grant`, and does so identically under a different upstream
environment (here one whose upstream exchange would fail with HTTP 500,
showing the upstream is never consulted). -/
theorem state_single_use_witness :
    alget (complete_auth0_callback cfg0 cbEnv0 st0 0 "nope" "up" "mc-1").2.pending "nope" =
      none ∧
    complete_auth0_callback cfg0 cbEnv500 st0 0 "nope" "up" "mc-1" =
      (Except.error (PyError.tokenError "invalid_grant" "Unknown or expired state"),
       { st0 with pending := alpop st0.pending "nope" }) :=
  ⟨(state_single_use cfg0 cbEnv0 st0 0 "nope" "up" "mc-1").1,
   (state_single_use cfg0 cbEnv0 st0 0 "nope" "up" "mc-1").2 (by rfl) cbEnv500⟩

/-- A JWKS fetch failure is the only error `_get_auth0_jwks` can raise. -/
theorem _get_auth0_jwks_error_inv {env : JwtEnv} {st : ProviderState} {now : Int}
    {e : PyError} {st1 : ProviderState}
    (h : _get_auth0_jwks env st now = (Except.error e, st1)) :
    env.fetchJwks = Except.error e := by
  unfold _get_auth0_jwks _fetch_auth0_jwks at h
  repeat' split at h
  all_goals simp_all

/-- Every `TokenError` raised by `_verify_auth0_id_token` carries
`invalid_grant`, provided the library oracles never raise `TokenError`
themselves (as the real PyJWT/httpx libraries do not). -/
theorem _verify_tokenerror_inv (cfg : ProviderConfig) (env : JwtEnv) (st : ProviderState)
    (now : Int) (t : String) (ec d : String) (st2 : ProviderState)
    (henv : env.noTokenError)
    (h : _verify_auth0_id_token cfg env st now t =
      (Except.error (PyError.tokenError ec d), st2)) :
    ec = "invalid_grant" := by
  unfold _verify_auth0_id_token at h
  rcases hpe : env.parseJwt t with e | tok
  · simp only [hpe, Prod.mk.injEq, Except.error.injEq] at h
    rw [h.1] at hpe
    exact absurd hpe (henv.1 t ec d)
  · simp only [hpe] at h
    rcases hkid : tok.header.kid with _ | kid
    · simp only [hkid, Prod.mk.injEq, Except.error.injEq, PyError.tokenError.injEq] at h
      exact h.1.1.symm
    · simp only [hkid] at h
      by_cases halg : tok.header.alg ≠ some "RS256" ∨ kid = ""
      · rw [if_pos halg] at h
        simp only [Prod.mk.injEq, Except.error.injEq, PyError.tokenError.injEq] at h
        exact h.1.1.symm
      · rw [if_neg halg] at h
        rcases hg : _get_auth0_jwks env st now with ⟨gr, st1⟩
        rcases gr with e | jwks
        · simp only [hg, Prod.mk.injEq, Except.error.injEq] at h
          have hf := _get_auth0_jwks_error_inv hg
          rw [h.1] at hf
          exact absurd hf (henv.2.1 ec d)
        · simp only [hg] at h
          rcases hkk : jwksKeys jwks with _ | ks
          · simp only [hkk, Prod.mk.injEq, Except.error.injEq, PyError.tokenError.injEq] at h
            exact h.1.1.symm
          · simp only [hkk] at h
            rcases hfj : findJwk ks kid with _ | jwk
            · simp only [hfj, Prod.mk.injEq, Except.error.injEq,
                PyError.tokenError.injEq] at h
              exact h.1.1.symm
            · simp only [hfj] at h
              rcases hfk : env.fromJwk jwk with e | key
              · simp only [hfk, Prod.mk.injEq, Except.error.injEq] at h
                rw [h.1] at hfk
                exact absurd hfk (henv.2.2 jwk ec d)
              · simp only [hfk] at h
                rcases hdec : jwtDecode env.sigOk key tok cfg.auth0_client_id
                    ("https://" ++ cfg.auth0_domain ++ "/") now with e | claims
                · simp only [hdec, Prod.mk.injEq, Except.error.injEq] at h
                  obtain ⟨k, hk⟩ := jwtDecode_error_inv hdec
                  rw [h.1] at hk
                  cases hk
                · simp only [hdec] at h
                  rcases hsub : alget claims "sub" with _ | js
                  · simp only [hsub, Prod.mk.injEq, Except.error.injEq,
                      PyError.tokenError.injEq] at h
                    exact h.1.1.symm
                  · simp only [hsub] at h
                    rcases js with _ | b | n | sub | xs | fs
                    · simp only [Prod.mk.injEq, Except.error.injEq,
                        PyError.tokenError.injEq] at h
                      exact h.1.1.symm
                    · simp only [Prod.mk.injEq, Except.error.injEq,
                        PyError.tokenError.injEq] at h
                      exact h.1.1.symm
                    · simp only [Prod.mk.injEq, Except.error.injEq,
                        PyError.tokenError.injEq] at h
                      exact h.1.1.symm
                    · have h2 : (if pyBlank sub then
                          ((Except.error (PyError.tokenError "invalid_grant" "Missing sub claim") :
                              Except PyError String), st1)
                          else ((Except.ok sub : Except PyError String), st1)) =
                          (Except.error (PyError.tokenError ec d), st2) := h
                      by_cases hb : pyBlank sub
                      · rw [if_pos hb] at h2
                        simp only [Prod.mk.injEq, Except.error.injEq,
                          PyError.tokenError.injEq] at h2
                        exact h2.1.1.symm
                      · rw [if_neg hb] at h2
                        simp at h2
                    · simp only [Prod.mk.injEq, Except.error.injEq,
                        PyError.tokenError.injEq] at h
                      exact h.1.1.symm
                    · simp only [Prod.mk.injEq, Except.error.injEq,
                        PyError.tokenError.injEq] at h
                      exact h.1.1.symm

/-- The fixture oracle environment raises only library errors. -/
theorem jwtEnv0_noTokenError : jwtEnv0.noTokenError := by
  refine ⟨?_, ?_, ?_⟩
  · intro s ec d
    by_cases hs : s = "idtok" <;> simp [jwtEnv0, hs]
  · intro ec d
    simp [jwtEnv0]
  · intro j ec d
    simp [jwtEnv0]

/-- C3 (amended): the callback's own OAuth-level failures — unknown state,
missing `id_token`, bad token header, invalid JWKS, unknown signing key,
blank subject — all raise `TokenError` with code `invalid_grant`, and
indeed every `TokenError` the callback raises carries `invalid_grant`.
But a failed upstream HTTP exchange propagates as the `httpx` status
exception rather than an OAuth error (the route turns it into a generic
400), and a signature/claims verification failure propagates the PyJWT
exception.  No failure is retried: a failing upstream exchange immediately
fails the call with that status. -/
theorem callback_failures (cfg : ProviderConfig) (env : CallbackEnv) (st : ProviderState)
    (now : Int) (state code mcp_code : String)
    (henv : env.jwt.noTokenError) :
    (∀ ec d,
      (complete_auth0_callback cfg env st now state code mcp_code).1 =
        Except.error (PyError.tokenError ec d) → ec = "invalid_grant") ∧
    (∀ status, env.tokenPost = HttpResult.failure status →
      alget st.pending state ≠ none →
      (complete_auth0_callback cfg env st now state code mcp_code).1 =
        Except.error (PyError.httpStatusError status)) ∧
    (∀ body, env.tokenPost = HttpResult.success body →
      alget st.pending state ≠ none →
      alget body "id_token" = none →
      (complete_auth0_callback cfg env st now state code mcp_code).1 =
        Except.error (PyError.tokenError "invalid_grant" "Auth0 did not return id_token")) := by
  refine ⟨?_, ?_, ?_⟩
  · intro ec d h
    rcases hp : alget st.pending state with _ | pending
    · simp only [complete_auth0_callback, hp, Except.error.injEq,
        PyError.tokenError.injEq] at h
      exact h.1.symm
    · simp only [complete_auth0_callback, hp] at h
      rcases htp : env.tokenPost with status | data
      · simp only [htp] at h
        cases h
      · simp only [htp] at h
        rcases hit : alget data "id_token" with _ | j
        · simp only [hit, Except.error.injEq, PyError.tokenError.injEq] at h
          exact h.1.symm
        · simp only [hit] at h
          rcases j with _ | b | n | idt | xs | fs
          · simp only [Except.error.injEq, PyError.tokenError.injEq] at h
            exact h.1.symm
          · simp only [Except.error.injEq, PyError.tokenError.injEq] at h
            exact h.1.symm
          · simp only [Except.error.injEq, PyError.tokenError.injEq] at h
            exact h.1.symm
          · rcases hv : _verify_auth0_id_token cfg env.jwt
                { st with pending := alpop st.pending state } now idt with ⟨r, st2⟩
            rcases r with e | u
            · simp only [hv, Except.error.injEq] at h
              rw [h] at hv
              exact _verify_tokenerror_inv cfg env.jwt _ now idt ec d st2 henv hv
            · simp only [hv] at h
              cases h
          · simp only [Except.error.injEq, PyError.tokenError.injEq] at h
            exact h.1.symm
          · simp only [Except.error.injEq, PyError.tokenError.injEq] at h
            exact h.1.symm
  · intro status htp hpend
    rcases hp : alget st.pending state with _ | pending
    · exact absurd hp hpend
    · simp [complete_auth0_callback, hp, htp]
  · intro body htp hpend hit
    rcases hp : alget st.pending state with _ | pending
    · exact absurd hp hpend
    · simp [complete_auth0_callback, hp, htp, hit]

/-- C3 witness: with the state known and the upstream exchange failing with
HTTP 500, the callback fails with exactly that HTTP status error. -/
theorem callback_failures_witness :
    (complete_auth0_callback cfg0 cbEnv500 st0 0 "state-1" "up" "mc-1").1 =
      Except.error (PyError.httpStatusError 500) :=
  (callback_failures cfg0 cbEnv500 st0 0 "state-1" "up" "mc-1"
      jwtEnv0_noTokenError).2.1 500 rfl (by decide)

/-- C3 counterexample: a failed upstream HTTP exchange (status 500) with a
valid state does NOT surface as an OAuth `invalid_grant` error — it raises
the `httpx` status exception — refuting "every failure of the callback
handler surfaces as an OAuth invalid_grant error". -/
theorem callback_http_failure_counterexample :
    (complete_auth0_callback cfg0 cbEnv500 st0 0 "state-1" "up" "mc-1").1 =
      Except.error (PyError.httpStatusError 500) ∧
    isInvalidGrant (complete_auth0_callback cfg0 cbEnv500 st0 0 "state-1" "up" "mc-1").1 =
      false := ⟨rfl, rfl⟩

/-- C6: the authorization code minted by a successful callback carries the
MCP client's id stashed in the pending authorization, its subject side-map
entry holds the verified upstream subject, and the access token minted when
that code is exchanged carries that subject in its `client_id` field —
never the MCP client's id, whenever the two differ. -/
theorem code_client_id_vs_subject (cfg : ProviderConfig) (env : CallbackEnv)
    (st : ProviderState) (now : Int) (state code mcp_code : String)
    (p : PendingAuth) (url : String) (st' : ProviderState)
    (hp : alget st.pending state = some p)
    (h : complete_auth0_callback cfg env st now state code mcp_code = (Except.ok url, st')) :
    ∃ acRec sub,
      alget st'.auth_codes mcp_code = some acRec ∧
      acRec.client_id = p.client_id ∧
      acRec.code = mcp_code ∧
      alget st'.auth_code_subject mcp_code = some sub ∧
      (∀ a2 r2 n2 tok2 st'',
        exchange_authorization_code cfg st' acRec a2 r2 n2 = (Except.ok tok2, st'') →
        ∃ atk, alget st''.access_tokens a2 = some atk ∧ atk.client_id = sub ∧
          (sub ≠ p.client_id → atk.client_id ≠ acRec.client_id)) := by
  simp only [complete_auth0_callback, hp] at h
  rcases htp : env.tokenPost with status | data
  · simp only [htp] at h
    simp at h
  · simp only [htp] at h
    rcases hit : alget data "id_token" with _ | j
    · simp only [hit] at h
      simp at h
    · simp only [hit] at h
      rcases j with _ | b | n | idt | xs | fs
      · simp at h
      · simp at h
      · simp at h
      · rcases hv : _verify_auth0_id_token cfg env.jwt
            { st with pending := alpop st.pending state } now idt with ⟨r, st2⟩
        rcases r with e | u
        · simp only [hv] at h
          simp at h
        · simp only [hv, Prod.mk.injEq, Except.ok.injEq] at h
          obtain ⟨-, hst⟩ := h
          subst hst
          refine ⟨_, u, alget_alput_self _ _ _, rfl, rfl, alget_alput_self _ _ _, ?_⟩
          intro a2 r2 n2 tok2 st'' hex
          by_cases hu : u = ""
          · simp [exchange_authorization_code, alget_alput_self, hu] at hex
          · simp only [exchange_authorization_code, alget_alput_self, hu, if_false,
              Prod.mk.injEq] at hex
            obtain ⟨-, hst''⟩ := hex
            subst hst''
            exact ⟨_, alget_alput_self _ _ _, rfl, fun hne => hne⟩
      · simp at h
      · simp at h

/-- C6 witness: the concrete successful callback mints code "mc-1" with the
MCP client id "mcp-client-1", and exchanging that code mints an access
token whose `client_id` is the verified subject "auth0|user-1". -/
theorem code_client_id_vs_subject_witness :
    (alget (complete_auth0_callback cfg0 cbEnv0 st0 0 "state-1" "up" "mc-1").2.auth_codes
        "mc-1").map (fun r => r.client_id) = some "mcp-client-1" ∧
    (alget (exchange_authorization_code cfg0
        (complete_auth0_callback cfg0 cbEnv0 st0 0 "state-1" "up" "mc-1").2
        { code := "mc-1", scopes := ["tool:tasks"], expires_at := 60,
          client_id := "mcp-client-1", code_challenge := "chal",
          redirect_uri := "https://client.example/cb",
          redirect_uri_provided_explicitly := true, resource := none }
        "acc-9" "ref-9" 70).2.access_tokens "acc-9").map (fun a => a.client_id) =
      some "auth0|user-1" := by
  obtain ⟨acRec, sub, h1, h2, -, h4, h5⟩ :=
    code_client_id_vs_subject cfg0 cbEnv0 st0 0 "state-1" "up" "mc-1" pending0
      "https://client.example/cb?code=mc-1&state=client-state"
      (complete_auth0_callback cfg0 cbEnv0 st0 0 "state-1" "up" "mc-1").2 (by rfl) (by rfl)
  have hrec : alget (complete_auth0_callback cfg0 cbEnv0 st0 0 "state-1" "up" "mc-1").2.auth_codes
      "mc-1" =
      some { code := "mc-1", scopes := ["tool:tasks"], expires_at := 60,
             client_id := "mcp-client-1", code_challenge := "chal",
             redirect_uri := "https://client.example/cb",
             redirect_uri_provided_explicitly := true, resource := none } := by rfl
  have hsub : alget (complete_auth0_callback cfg0 cbEnv0 st0 0 "state-1" "up" "mc-1").2.auth_code_subject
      "mc-1" = some "auth0|user-1" := by rfl
  obtain rfl : acRec =
      { code := "mc-1", scopes := ["tool:tasks"], expires_at := 60,
        client_id := "mcp-client-1", code_challenge := "chal",
        redirect_uri := "https://client.example/cb",
        redirect_uri_provided_explicitly := true, resource := none } :=
    Option.some.inj (h1.symm.trans hrec)
  obtain rfl : sub = "auth0|user-1" := Option.some.inj (h4.symm.trans hsub)
  constructor
  · rw [hrec]
    rfl
  · obtain ⟨atk, ha, hc, -⟩ := h5 "acc-9" "ref-9" 70
      { access_token := "acc-9", token_type := "bearer", expires_in := 3600,
        refresh_token := "ref-9", scope := "tool:tasks" }
      (exchange_authorization_code cfg0
        (complete_auth0_callback cfg0 cbEnv0 st0 0 "state-1" "up" "mc-1").2
        { code := "mc-1", scopes := ["tool:tasks"], expires_at := 60,
          client_id := "mcp-client-1", code_challenge := "chal",
          redirect_uri := "https://client.example/cb",
          redirect_uri_provided_explicitly := true, resource := none }
        "acc-9" "ref-9" 70).2 (by rfl)
    rw [ha]
    simp [hc]

/-- Success inversion for `_verify_auth0_id_token`: a verified subject
implies every check passed — RS256 header with non-empty kid, a JWKS entry
matching that kid, a verifying signature under the constructed key, and
valid `exp`/`aud`/`iss`/`sub` claims. -/
theorem _verify_ok_inv (cfg : ProviderConfig) (env : JwtEnv) (st : ProviderState)
    (now : Int) (t : String) (sub : String) (st2 : ProviderState)
    (h : _verify_auth0_id_token cfg env st now t = (Except.ok sub, st2)) :
    ∃ tok kid jwk key,
      env.parseJwt t = Except.ok tok ∧
      tok.header.alg = some "RS256" ∧
      tok.header.kid = some kid ∧ kid ≠ "" ∧
      (∃ fs, jwk = Json.obj fs ∧ alget fs "kid" = some (Json.str kid)) ∧
      env.fromJwk jwk = Except.ok key ∧
      env.sigOk key tok = true ∧
      (∃ e, alget tok.payload "exp" = some (Json.num e) ∧ now ≤ e) ∧
      audOk tok.payload cfg.auth0_client_id = true ∧
      issOk tok.payload ("https://" ++ cfg.auth0_domain ++ "/") = true ∧
      alget tok.payload "sub" = some (Json.str sub) ∧ pyBlank sub = false := by
  unfold _verify_auth0_id_token at h
  rcases hpe : env.parseJwt t with e | tok
  · simp only [hpe] at h
    simp at h
  · simp only [hpe] at h
    rcases hkid : tok.header.kid with _ | kid
    · simp only [hkid] at h
      simp at h
    · simp only [hkid] at h
      by_cases halg : tok.header.alg ≠ some "RS256" ∨ kid = ""
      · rw [if_pos halg] at h
        simp at h
      · rw [if_neg halg] at h
        push_neg at halg
        rcases hg : _get_auth0_jwks env st now with ⟨gr, st1⟩
        rcases gr with e | jwks
        · simp only [hg] at h
          simp at h
        · simp only [hg] at h
          rcases hkk : jwksKeys jwks with _ | ks
          · simp only [hkk] at h
            simp at h
          · simp only [hkk] at h
            rcases hfj : findJwk ks kid with _ | jwk
            · simp only [hfj] at h
              simp at h
            · simp only [hfj] at h
              rcases hfk : env.fromJwk jwk with e | key
              · simp only [hfk] at h
                simp at h
              · simp only [hfk] at h
                rcases hdec : jwtDecode env.sigOk key tok cfg.auth0_client_id
                    ("https://" ++ cfg.auth0_domain ++ "/") now with e | claims
                · simp only [hdec] at h
                  simp at h
                · simp only [hdec] at h
                  obtain ⟨hclaims, hsig, hexp, haud, hiss⟩ := jwtDecode_ok_inv hdec
                  subst hclaims
                  rcases hsub : alget tok.payload "sub" with _ | js
                  · simp only [hsub] at h
                    simp at h
                  · simp only [hsub] at h
                    rcases js with _ | b | n | s | xs | fs
                    · simp at h
                    · simp at h
                    · simp at h
                    · have h2 : (if pyBlank s then
                          ((Except.error
                              (PyError.tokenError "invalid_grant" "Missing sub claim") :
                              Except PyError String), st1)
                          else ((Except.ok s : Except PyError String), st1)) =
                          ((Except.ok sub : Except PyError String), st2) := h
                      by_cases hb : pyBlank s
                      · rw [if_pos hb] at h2
                        simp at h2
                      · rw [if_neg hb] at h2
                        simp only [Prod.mk.injEq, Except.ok.injEq] at h2
                        obtain ⟨hssub, -⟩ := h2
                        subst hssub
                        exact ⟨tok, kid, jwk, key, rfl, halg.1, hkid, halg.2,
                          findJwk_some_inv hfj, hfk, hsig, hexp, haud, hiss, hsub,
                          by simpa using hb⟩
                    · simp at h
                    · simp at h

/-- Success inversion for `verify_token_body`: a returned AccessToken
implies every verification step passed, and its fields carry the presented
token string, the verified subject, the derived scopes, and the configured
audience. -/
theorem verify_token_body_some_inv (cfg : VerifierConfig) (env : JwtEnv)
    (st : VerifierState) (now : Int) (token : String) (a : AccessToken)
    (st2 : VerifierState)
    (h : verify_token_body cfg env st now token = (Except.ok (some a), st2)) :
    ∃ tok kid jwk key,
      env.parseJwt token = Except.ok tok ∧
      tok.header.alg = some "RS256" ∧
      tok.header.kid = some kid ∧ kid ≠ "" ∧
      (∃ fs, jwk = Json.obj fs ∧ alget fs "kid" = some (Json.str kid)) ∧
      env.fromJwk jwk = Except.ok key ∧
      env.sigOk key tok = true ∧
      (∃ e, alget tok.payload "exp" = some (Json.num e) ∧ now ≤ e) ∧
      audOk tok.payload cfg.audience = true ∧
      issOk tok.payload cfg.issuer = true ∧
      alget tok.payload "sub" = some (Json.str a.client_id) ∧
      pyBlank a.client_id = false ∧
      a.token = token ∧
      a.scopes = _scopes_from_claims tok.payload ∧
      a.resource = some cfg.audience := by
  unfold verify_token_body at h
  rcases hpe : env.parseJwt token with e | tok
  · simp only [hpe] at h
    simp at h
  · simp only [hpe] at h
    rcases hkid : tok.header.kid with _ | kid
    · simp only [hkid] at h
      simp at h
    · simp only [hkid] at h
      by_cases halg : tok.header.alg ≠ some "RS256" ∨ kid = ""
      · rw [if_pos halg] at h
        simp at h
      · rw [if_neg halg] at h
        push_neg at halg
        rcases hg : _get_jwks cfg env st now with ⟨gr, st1⟩
        rcases gr with e | jwks
        · simp only [hg] at h
          simp at h
        · simp only [hg] at h
          rcases hkk : jwksKeys jwks with _ | ks
          · simp only [hkk] at h
            simp at h
          · simp only [hkk] at h
            rcases hfj : findJwk ks kid with _ | jwk
            · simp only [hfj] at h
              simp at h
            · simp only [hfj] at h
              rcases hfk : env.fromJwk jwk with e | key
              · simp only [hfk] at h
                simp at h
              · simp only [hfk] at h
                rcases hdec : jwtDecode env.sigOk key tok cfg.audience cfg.issuer now
                    with e | claims
                · simp only [hdec] at h
                  simp at h
                · simp only [hdec] at h
                  obtain ⟨hclaims, hsig, hexp, haud, hiss⟩ := jwtDecode_ok_inv hdec
                  subst hclaims
                  rcases hsub : alget tok.payload "sub" with _ | js
                  · simp only [hsub] at h
                    simp at h
                  · simp only [hsub] at h
                    rcases js with _ | b | n | s | xs | fs
                    · simp at h
                    · simp at h
                    · simp at h
                    · have h2 : (if pyBlank s then
                          ((Except.ok none : Except PyError (Option AccessToken)), st1)
                          else
                            ((Except.ok (some
                              { token := token, client_id := s,
                                scopes := _scopes_from_claims tok.payload,
                                expires_at :=
                                  (match alget tok.payload "exp" with
                                   | some (Json.num e) => some e
                                   | _ => none),
                                resource := some cfg.audience }) :
                              Except PyError (Option AccessToken)), st1)) =
                          (Except.ok (some a), st2) := h
                      by_cases hb : pyBlank s
                      · rw [if_pos hb] at h2
                        simp at h2
                      · rw [if_neg hb] at h2
                        simp only [Prod.mk.injEq, Except.ok.injEq, Option.some.injEq] at h2
                        obtain ⟨ha, -⟩ := h2
                        subst ha
                        exact ⟨tok, kid, jwk, key, rfl, halg.1, hkid, halg.2,
                          findJwk_some_inv hfj, hfk, hsig, hexp, haud, hiss, hsub,
                          by simpa using hb, rfl, rfl, rfl⟩
                    · simp at h
                    · simp at h

/-- A `some` result of `verify_token` came from an `ok some` of the body. -/
theorem verify_token_some_body (cfg : VerifierConfig) (env : JwtEnv) (st : VerifierState)
    (now : Int) (token : String) (a : AccessToken) (st2 : VerifierState)
    (h : verify_token cfg env st now token = (some a, st2)) :
    verify_token_body cfg env st now token = (Except.ok (some a), st2) := by
  unfold verify_token at h
  rcases hb : verify_token_body cfg env st now token with ⟨r, stx⟩
  rcases r with e | r
  · simp only [hb] at h
    simp at h
  · simp only [hb, Prod.mk.injEq] at h
    obtain ⟨hr, hst⟩ := h
    subst hr
    subst hst
    rfl

/-- C7 (amended): both identity-token verifiers accept only fully valid
tokens: a success of the provider's `_verify_auth0_id_token`, or a `some`
result of the standalone `verify_token`, implies the token parsed with an
RS256 header and non-empty `kid` matching a JWKS entry, its signature
verified under the key built from that entry, and its `exp`, `aud`, `iss`
and `sub` claims validated against the configured audience/issuer.
Contrapositively, every token failing any of these checks is rejected (the
standalone verifier returns `None`; the provider raises — though for
signature/claims failures it propagates the PyJWT exception rather than
`invalid_grant`, see the counterexample). -/
theorem idtoken_verification_sound :
    (∀ (cfg : ProviderConfig) (env : JwtEnv) (st : ProviderState) (now : Int)
        (t sub : String) (st2 : ProviderState),
      _verify_auth0_id_token cfg env st now t = (Except.ok sub, st2) →
      ∃ tok kid jwk key,
        env.parseJwt t = Except.ok tok ∧
        tok.header.alg = some "RS256" ∧
        tok.header.kid = some kid ∧ kid ≠ "" ∧
        (∃ fs, jwk = Json.obj fs ∧ alget fs "kid" = some (Json.str kid)) ∧
        env.fromJwk jwk = Except.ok key ∧
        env.sigOk key tok = true ∧
        (∃ e, alget tok.payload "exp" = some (Json.num e) ∧ now ≤ e) ∧
        audOk tok.payload cfg.auth0_client_id = true ∧
        issOk tok.payload ("https://" ++ cfg.auth0_domain ++ "/") = true ∧
        alget tok.payload "sub" = some (Json.str sub) ∧ pyBlank sub = false) ∧
    (∀ (cfg : VerifierConfig) (env : JwtEnv) (st : VerifierState) (now : Int)
        (token : String) (a : AccessToken) (st2 : VerifierState),
      verify_token cfg env st now token = (some a, st2) →
      ∃ tok kid jwk key,
        env.parseJwt token = Except.ok tok ∧
        tok.header.alg = some "RS256" ∧
        tok.header.kid = some kid ∧ kid ≠ "" ∧
        (∃ fs, jwk = Json.obj fs ∧ alget fs "kid" = some (Json.str kid)) ∧
        env.fromJwk jwk = Except.ok key ∧
        env.sigOk key tok = true ∧
        (∃ e, alget tok.payload "exp" = some (Json.num e) ∧ now ≤ e) ∧
        audOk tok.payload cfg.audience = true ∧
        issOk tok.payload cfg.issuer = true ∧
        alget tok.payload "sub" = some (Json.str a.client_id) ∧
        pyBlank a.client_id = false) := by
  constructor
  · intro cfg env st now t sub st2 h
    exact _verify_ok_inv cfg env st now t sub st2 h
  · intro cfg env st now token a st2 h
    obtain ⟨tok, kid, jwk, key, h1, h2, h3, h4, h5, h6, h7, h8, h9, h10, h11, h12, -, -, -⟩ :=
      verify_token_body_some_inv cfg env st now token a st2
        (verify_token_some_body cfg env st now token a st2 h)
    exact ⟨tok, kid, jwk, key, h1, h2, h3, h4, h5, h6, h7, h8, h9, h10, h11, h12⟩

/-- C7 witness: the concrete identity token "idtok" verifies for `cfg0`, so
the soundness conclusions hold: its audience, issuer and subject claims
really match the configuration. -/
theorem idtoken_verification_sound_witness :
    audOk idJwt0.payload cfg0.auth0_client_id = true ∧
    issOk idJwt0.payload ("https://" ++ cfg0.auth0_domain ++ "/") = true ∧
    alget idJwt0.payload "sub" = some (Json.str "auth0|user-1") := by
  obtain ⟨tok, kid, jwk, key, hparse, -, -, -, -, -, -, -, haud, hiss, hsub, -⟩ :=
    idtoken_verification_sound.1 cfg0 jwtEnv0 st0 0 "idtok" "auth0|user-1"
      (_verify_auth0_id_token cfg0 jwtEnv0 st0 0 "idtok").2 (by rfl)
  have htok : tok = idJwt0 :=
    Except.ok.inj (hparse.symm.trans (rfl : jwtEnv0.parseJwt "idtok" = Except.ok idJwt0))
  subst htok
  exact ⟨haud, hiss, hsub⟩

/-- C7 counterexample: a token whose signature does not verify is rejected
by the provider's `_verify_auth0_id_token` with the PyJWT
`InvalidSignatureError` — not by raising an `invalid_grant` `TokenError`,
refuting the "raises invalid_grant" part of the claim. -/
theorem idtoken_bad_signature_counterexample :
    (_verify_auth0_id_token cfg0 jwtEnvBadSig st0 0 "idtok").1 =
      Except.error (PyError.jwtError "InvalidSignatureError") ∧
    isInvalidGrant (_verify_auth0_id_token cfg0 jwtEnvBadSig st0 0 "idtok").1 = false :=
  ⟨rfl, rfl⟩

/-- C8 (amended): `_scopes_from_claims` equals the claim's description
corrected in two places — a whitespace-only `scope` string contributes
nothing, and only the NON-EMPTY string elements of `permissions` are kept —
and the AccessToken returned by `verify_token` carries the verified `sub`
claim as its `client_id` and exactly those derived scopes. -/
theorem scopes_derivation :
    (∀ claims, _scopes_from_claims claims = scopesFromClaimsAmended claims) ∧
    (∀ (cfg : VerifierConfig) (env : JwtEnv) (st : VerifierState) (now : Int)
        (token : String) (a : AccessToken) (st2 : VerifierState),
      verify_token cfg env st now token = (some a, st2) →
      ∃ tok, env.parseJwt token = Except.ok tok ∧
        alget tok.payload "sub" = some (Json.str a.client_id) ∧
        a.scopes = _scopes_from_claims tok.payload) := by
  constructor
  · intro claims
    have hperm : ∀ ps : List Json,
        ps.filterMap (fun p => match p with
          | Json.str q => if q ≠ "" then some q else none
          | _ => none) =
        (ps.filterMap (fun p => match p with
          | Json.str q => some q
          | _ => none)).filter (fun q => q ≠ "") := by
      intro ps
      induction ps with
      | nil => rfl
      | cons p rest ih =>
          rcases p with _ | b | n | q | xs | fs <;>
            simp only [List.filterMap_cons, List.filter_cons, ih]
          by_cases hq : q = "" <;> simp [hq]
    have hB : (match alget claims "permissions" with
        | some (Json.arr ps) =>
            ps.filterMap (fun p => match p with
              | Json.str q => if q ≠ "" then some q else none
              | _ => none)
        | _ => []) =
        (match alget claims "permissions" with
        | some (Json.arr ps) =>
            (ps.filterMap (fun p => match p with
              | Json.str q => some q
              | _ => none)).filter (fun q => q ≠ "")
        | _ => ([] : List String)) := by
      rcases alget claims "permissions" with _ | j
      · rfl
      · rcases j with _ | b | n | q | ps | fs
        · rfl
        · rfl
        · rfl
        · rfl
        · exact hperm ps
        · rfl
    show dedupeSeen []
        ((match alget claims "scope" with
          | some (Json.str s) =>
              if pyBlank s then [] else (pySplitSpace s).filter (fun t => t ≠ "")
          | _ => []) ++
         (match alget claims "permissions" with
          | some (Json.arr ps) =>
              ps.filterMap (fun p => match p with
                | Json.str q => if q ≠ "" then some q else none
                | _ => none)
          | _ => [])) =
      dedupeSeen []
        ((match alget claims "scope" with
          | some (Json.str s) =>
              if pyBlank s then [] else (pySplitSpace s).filter (fun t => t ≠ "")
          | _ => []) ++
         (match alget claims "permissions" with
          | some (Json.arr ps) =>
              (ps.filterMap (fun p => match p with
                | Json.str q => some q
                | _ => none)).filter (fun q => q ≠ "")
          | _ => []))
    rw [hB]
  · intro cfg env st now token a st2 h
    obtain ⟨tok, kid, jwk, key, h1, -, -, -, -, -, -, -, -, -, h11, -, -, h14, -⟩ :=
      verify_token_body_some_inv cfg env st now token a st2
        (verify_token_some_body cfg env st now token a st2 h)
    exact ⟨tok, h1, h11, h14⟩

/-- C8 witness: the concrete API token "apitok" verifies; its AccessToken
carries the subject and the derived scope list of its claims. -/
theorem scopes_derivation_witness :
    alget apiJwt0.payload "sub" = some (Json.str "auth0|user-1") ∧
    ["read:tasks", "write:tasks", "admin"] = _scopes_from_claims apiJwt0.payload := by
  obtain ⟨tok, hparse, hsub, hscopes⟩ :=
    scopes_derivation.2 vcfg0 vEnv0 ⟨none⟩ 0 "apitok"
      { token := "apitok", client_id := "auth0|user-1",
        scopes := ["read:tasks", "write:tasks", "admin"],
        expires_at := some 1000000, resource := some "https://api.example" }
      (verify_token vcfg0 vEnv0 ⟨none⟩ 0 "apitok").2 (by rfl)
  have htok : tok = apiJwt0 :=
    Except.ok.inj (hparse.symm.trans (rfl : vEnv0.parseJwt "apitok" = Except.ok apiJwt0))
  subst htok
  exact ⟨hsub, hscopes⟩

/-- C8 counterexample: on claims whose `permissions` array contains an
empty string, the code drops it while the claim as stated keeps it — the
derived list is ["a"], not ["", "a"]. -/
theorem scopes_spec_counterexample :
    _scopes_from_claims [("permissions", Json.arr [Json.str "", Json.str "a"])] = ["a"] ∧
    scopesFromClaimsClaimed [("permissions", Json.arr [Json.str "", Json.str "a"])] =
      ["", "a"] ∧
    _scopes_from_claims [("permissions", Json.arr [Json.str "", Json.str "a"])] ≠
      scopesFromClaimsClaimed [("permissions", Json.arr [Json.str "", Json.str "a"])] :=
  ⟨rfl, rfl, by decide⟩

/-- C9: `verify_token` is total at its public interface: every exception of
the body (any error from parsing, JWKS fetching, key construction or
decoding) is caught and returned as `None`, and every non-`None` result is
a well-formed AccessToken carrying the presented token string, the
configured audience as its resource, and a non-blank subject as its
`client_id`. -/
theorem verify_token_total (cfg : VerifierConfig) (env : JwtEnv) (st : VerifierState)
    (now : Int) (token : String) :
    (∀ e st2, verify_token_body cfg env st now token = (Except.error e, st2) →
      verify_token cfg env st now token = (none, st2)) ∧
    ((verify_token cfg env st now token).1 = none ∨
      ∃ a, (verify_token cfg env st now token).1 = some a ∧ a.token = token ∧
        a.resource = some cfg.audience ∧ pyBlank a.client_id = false) := by
  constructor
  · intro e st2 hb
    unfold verify_token
    rw [hb]
  · rcases hv : verify_token cfg env st now token with ⟨r, st2⟩
    rcases r with _ | a
    · left
      rfl
    · right
      obtain ⟨tok, kid, jwk, key, -, -, -, -, -, -, -, -, -, -, -, hblank, htok, -, hres⟩ :=
        verify_token_body_some_inv cfg env st now token a st2
          (verify_token_some_body cfg env st now token a st2 hv)
      exact ⟨a, rfl, htok, hres, hblank⟩

/-- C9 witness: with an oracle whose JWT parse always raises, the verifier
still returns `None` rather than propagating the exception. -/
theorem verify_token_total_witness :
    verify_token vcfg0 vEnvBoom ⟨none⟩ 0 "tok" = (none, ⟨none⟩) :=
  (verify_token_total vcfg0 vEnvBoom ⟨none⟩ 0 "tok").1 (PyError.libError "boom") ⟨none⟩
    (by rfl)

end OAuthSpec
